import Mathlib

/-!
Shallow embedding of the rslaser exploratory notebooks.

Each notebook is a linear sequence of cells.  We embed the
time-stepping loops as explicit per-iteration event traces, the heat
notebook's plot helper as a total function on finite generators, the
SRW cavity-propagation loop as a heap of wavefront objects with
explicit deepcopy and in-place mutation, and the Frantz-Nodvik
analytic-gain cell together with the laser_amp_test_01 plotting loop
as real-valued arithmetic.
-/

/-- Observable effects performed by notebook code: a call into the
FEniCS solver, a call into the SRW propagator, rendering a plot,
yielding a plot from a generator, appending to a Python list, or
writing a file with the given name. -/
inductive Eff where
  | solveCall
  | propagCall
  | plotRender
  | yieldPlot
  | listAppend
  | fileWrite (fname : String)
deriving DecidableEq

/-- Test whether an effect is a solver/propagator call into an
external numerical library. -/
def isSolverCall : Eff → Bool
  | Eff.solveCall => true
  | Eff.propagCall => true
  | _ => false

/-- Test whether an effect writes a file. -/
def isFileWrite : Eff → Bool
  | Eff.fileWrite _ => true
  | _ => false

/-- Number of time steps in xt02_heat_2D_square (num_steps = 50). -/
def heat_num_steps : Nat := 50

/-- Plot interval set inside evolve in xt02_heat_2D_square (nip = 10). -/
def heat_nip : Nat := 10

/-- Events of iteration n of the evolve generator in
xt02_heat_2D_square: one solve call, then a yielded plot exactly when
n % nip == 0. -/
def evolve_iter (n : Nat) : List Eff :=
  [Eff.solveCall] ++ (if n % heat_nip = 0 then [Eff.yieldPlot] else [])

/-- Per-iteration trace of the evolve generator over its 50 steps. -/
def evolve_trace : List (List Eff) :=
  (List.range heat_num_steps).map evolve_iter

/-- Directory-and-stem of the png files written by the second
time-stepping cell of xt02_heat_2D_square. -/
def heat_png_stem : String := "heat_2D_sqr/u_plot_"

/-- Extension of the png files written by that cell. -/
def heat_png_ext : String := ".png"

/-- Events of iteration n of the second (file-saving) time-stepping
cell of xt02_heat_2D_square: solve, plot, then plt.savefig of a
per-step png file. -/
def heat_save_iter (n : Nat) : List Eff :=
  [Eff.solveCall, Eff.plotRender,
   Eff.fileWrite (heat_png_stem ++ toString n ++ heat_png_ext)]

/-- Per-iteration trace of the file-saving time-stepping cell of
xt02_heat_2D_square over its 50 steps. -/
def heat_save_trace : List (List Eff) :=
  (List.range heat_num_steps).map heat_save_iter

/-- Number of time steps in fn_simp_06d (n_steps = 800). -/
def fnsimp_n_steps : Nat := 800

/-- Plot interval in fn_simp_06d (nip = 100). -/
def fnsimp_nip : Nat := 100

/-- Events of iteration ii of the fn_simp_06d time-stepping loop: one
solve call, then an updated plot exactly when ii % nip == 0. -/
def fnsimp_iter (ii : Nat) : List Eff :=
  [Eff.solveCall] ++ (if ii % fnsimp_nip = 0 then [Eff.plotRender] else [])

/-- Per-iteration trace of the fn_simp_06d time-stepping loop. -/
def fnsimp_trace : List (List Eff) :=
  (List.range fnsimp_n_steps).map fnsimp_iter

/-- Number of passes of the cavity-propagation loop (npass = 4). -/
def cavity_npass : Nat := 4

/-- Events of one pass of the cavity-propagation loop: four
srwl.PropagElecField calls (right lens section, drift, left lens
section, drift), each followed by an append to cavitywfrList. -/
def cavity_pass_events : List Eff :=
  [Eff.propagCall, Eff.listAppend, Eff.propagCall, Eff.listAppend,
   Eff.propagCall, Eff.listAppend, Eff.propagCall, Eff.listAppend]

/-- Per-iteration trace of the cavity-propagation loop. -/
def cavity_trace : List (List Eff) :=
  (List.range cavity_npass).map (fun _ => cavity_pass_events)

/-- Name of the text file exported by the wavefront notebook
(src/unnamed/part_001) via np.savetxt. -/
def part001_fname : String := "InitialWavefrontArray.txt"

/-- Effects of the export cell of the wavefront notebook
(src/unnamed/part_001): one np.savetxt call writing
InitialWavefrontArray.txt. -/
def part001_savetxt_cell : List Eff :=
  [Eff.fileWrite part001_fname]

/-- Effects of all modeled notebook cells, flattened. -/
def repo_effects : List Eff :=
  part001_savetxt_cell ++ heat_save_trace.flatten ++ evolve_trace.flatten ++
    fnsimp_trace.flatten ++ cavity_trace.flatten

/-- Python exceptions arising in our embedding: next() on an
exhausted generator raises StopIteration, and division by zero raises
ZeroDivisionError. -/
inductive PyExn where
  | stopIteration
  | zeroDivisionError
deriving DecidableEq

/-- Embedding of Python's next(g) for a generator with finitely many
remaining items: raises StopIteration when the generator is
exhausted. -/
def nextGen {α : Type} : List α → Except PyExn (α × List α)
  | [] => Except.error PyExn.stopIteration
  | a :: g => Except.ok (a, g)

/-- Worker for multiplot_from_generator with num_columns = k + 1.
The second list argument is the generator's remaining items, j the
number of next() calls still to make in the current row.  When the
generator is exhausted the next next() raises StopIteration, which the
surrounding try/except catches, returning normally. -/
def multiplotGo {α : Type} (k : Nat) : List α → Nat → Except PyExn Unit
  | [], _ => Except.ok ()
  | _ :: g, j + 1 => multiplotGo k g j
  | _ :: g, 0 => multiplotGo k g k

/-- Embedding of multiplot_from_generator from xt02_heat_2D_square as
called in the notebook (figsize_for_one_row left at its None default):
the default figsize computation divides 15 by num_columns before the
try block, so num_columns = 0 raises ZeroDivisionError, which nothing
catches; otherwise an unbounded while-loop starts a plot row of
num_columns subplots and calls next(g) once per subplot, wrapped in
try/except StopIteration.  The notebook calls it with
num_columns = 5. -/
def multiplot_from_generator {α : Type} (g : List α) (num_columns : Nat) :
    Except PyExn Unit :=
  if num_columns = 0 then Except.error PyExn.zeroDivisionError
  else multiplotGo (num_columns - 1) g 0

/-- Heap state of the cavity-propagation cell: fresh is the next
unused address, store maps addresses to wavefront values, and refs is
cavitywfrList as a list of addresses of Python objects. -/
structure CavState (W : Type) where
  fresh : Nat
  store : Nat → W
  refs : List Nat

/-- Pointwise store update: in-place mutation of one heap object. -/
def hUpdate {W : Type} (s : Nat → W) (r : Nat) (w : W) : Nat → W :=
  fun i => if i = r then w else s i

/-- One statement group of the cavity loop body:
wfrNew = deepcopy(object at src); srwl.PropagElecField(wfrNew, bl)
mutates wfrNew in place; cavitywfrList.append(wfrNew).  Returns the
new state and the address of the appended wavefront. -/
def cavityStep {W : Type} (bl : W → W) (st : CavState W) (src : Nat) :
    CavState W × Nat :=
  let r := st.fresh
  let copied := hUpdate st.store r (st.store src)
  let mutated := hUpdate copied r (bl (copied r))
  (⟨r + 1, mutated, st.refs ++ [r]⟩, r)

/-- One pass of the cavity loop: starting from a deepcopy of
cavitywfrList[-1], propagate through the right lens section, a drift,
the left lens section, and a drift, each acting on a deepcopy of the
wavefront appended just before. -/
def cavityPass {W : Type} (pr pd pl : W → W) (st : CavState W) : CavState W :=
  let src := st.refs.getLastD 0
  let s1 := cavityStep pr st src
  let s2 := cavityStep pd s1.1 s1.2
  let s3 := cavityStep pl s2.1 s2.2
  (cavityStep pd s3.1 s3.2).1

/-- Initial state of the cavity cell: the heap holds wfrCenter0 at
address 0 and cavitywfrList = [wfrCenter0]. -/
def cavityInit {W : Type} (w0 : W) : CavState W :=
  ⟨1, fun _ => w0, [0]⟩

/-- Iterate the cavity pass a given number of times. -/
def cavityLoop {W : Type} (pr pd pl : W → W) : Nat → CavState W → CavState W
  | 0, st => st
  | n + 1, st => cavityLoop pr pd pl n (cavityPass pr pd pl st)

/-- Full run of the cavity-propagation loop with npass = 4, for an
arbitrary wavefront type W, initial wavefront w0, and propagation
semantics pr (right), pd (drift), pl (left). -/
def cavityRun {W : Type} (w0 : W) (pr pd pl : W → W) : CavState W :=
  cavityLoop pr pd pl cavity_npass (cavityInit w0)

noncomputable section

/-- Speed of light in cm/s as used in fn1d_02:
c_cm = 100 * c with scipy.constants.c = 299792458 m/s. -/
def c_cm : ℝ := 100 * 299792458

/-- Scalar parameters read by the analytic-gain cell of fn1d_02. -/
structure FN1DParams where
  gamma_ts : ℝ
  sigma_ts : ℝ
  delta_ts_0 : ℝ
  n_ph_0 : ℝ
  tau_pulse : ℝ
  length_ts : ℝ

/-- Parameter values assigned in the fn1d_02 notebook cells:
gamma_ts = 1 + gamma_ts_1 / gamma_ts_2 with both degeneracies 1,
sigma_ts = 1.5e-19, delta_ts_0 = 1e21, n_ph_0 = 1e11,
tau_pulse = 1e-9, length_ts = 1. -/
def fn1dDefaults : FN1DParams :=
  ⟨1 + 1 / 1, 1.5e-19, 1e21, 1e11, 1e-9, 1⟩

/-- eta_pulse = n_ph_0 * c_cm * tau_pulse. -/
def fn1d_eta_pulse (p : FN1DParams) : ℝ := p.n_ph_0 * c_cm * p.tau_pulse

/-- epsilon_ts = gamma_ts * sigma_ts * eta_pulse. -/
def fn1d_epsilon_ts (p : FN1DParams) : ℝ :=
  p.gamma_ts * p.sigma_ts * fn1d_eta_pulse p

/-- g_e_max = 1 + delta_ts_0 * length_ts / gamma_ts / eta_pulse. -/
def fn1d_g_e_max (p : FN1DParams) : ℝ :=
  1 + p.delta_ts_0 * p.length_ts / p.gamma_ts / fn1d_eta_pulse p

/-- factor_ts = sigma_ts * delta_ts_0 * length_ts. -/
def fn1d_factor_ts (p : FN1DParams) : ℝ :=
  p.sigma_ts * p.delta_ts_0 * p.length_ts

/-- factor_max = np.log(g_e_max). -/
def fn1d_factor_max (p : FN1DParams) : ℝ := Real.log (fn1d_g_e_max p)

/-- Gain formula evaluated inside the branch of the analytic-gain
cell: g_e = np.log(1 + np.exp(factor_ts) * (np.exp(epsilon_ts) - 1)) / epsilon_ts. -/
def fn1d_g_e_formula (p : FN1DParams) : ℝ :=
  Real.log (1 + Real.exp (fn1d_factor_ts p) * (Real.exp (fn1d_epsilon_ts p) - 1)) /
    fn1d_epsilon_ts p

/-- Remaining inversion density evaluated inside the branch:
delta_ts = delta_ts_0 - (gamma_ts * eta_pulse / length_ts) * (g_e - 1). -/
def fn1d_delta_formula (p : FN1DParams) : ℝ :=
  p.delta_ts_0 - p.gamma_ts * fn1d_eta_pulse p / p.length_ts * (fn1d_g_e_formula p - 1)

/-- Printed outputs of the analytic-gain cell of fn1d_02. -/
structure FN1DResult where
  eta_pulse : ℝ
  epsilon_ts : ℝ
  factor_ts : ℝ
  factor_max : ℝ
  delta_ts : ℝ
  g_e : ℝ
  n_ph : ℝ

/-- Embedding of the analytic-gain cell of fn1d_02: starts from
g_e = g_e_max and delta_ts = 0, then overwrites both with the
logarithmic gain formula when factor_ts < factor_max; finally
n_ph = g_e * n_ph_0. -/
def fn1d_compute (p : FN1DParams) : FN1DResult :=
  if fn1d_factor_ts p < fn1d_factor_max p then
    ⟨fn1d_eta_pulse p, fn1d_epsilon_ts p, fn1d_factor_ts p, fn1d_factor_max p,
     fn1d_delta_formula p, fn1d_g_e_formula p, fn1d_g_e_formula p * p.n_ph_0⟩
  else
    ⟨fn1d_eta_pulse p, fn1d_epsilon_ts p, fn1d_factor_ts p, fn1d_factor_max p,
     0, fn1d_g_e_max p, fn1d_g_e_max p * p.n_ph_0⟩

/-- Spec-claimed variant of the analytic-gain cell for claim C2, which
asserts the cell contains no conditional that bounds g_e or floors
delta_ts: this variant always evaluates the logarithmic gain formula
and the corresponding inversion density. -/
def fn1d_compute_noclamp (p : FN1DParams) : FN1DResult :=
  ⟨fn1d_eta_pulse p, fn1d_epsilon_ts p, fn1d_factor_ts p, fn1d_factor_max p,
   fn1d_delta_formula p, fn1d_g_e_formula p, fn1d_g_e_formula p * p.n_ph_0⟩

/-- Number of sample points of the fn1d_02 plotting loop
(num_points = 100). -/
def fn1d_num_points : Nat := 100

/-- Sample abscissa of the fn1d_02 plotting loop:
x = i * length_ts / (num_points - 1). -/
def fn1d_x (i : Nat) : ℝ :=
  (i : ℝ) * fn1dDefaults.length_ts / ((fn1d_num_points : ℝ) - 1)

/-- Array delta_ts_1 filled by the fn1d_02 plotting loop:
delta_ts_1[i] = delta_ts_0 / (1 + np.exp(sigma_ts * delta_ts_0 * x) * (np.exp(epsilon_ts) - 1)). -/
def delta_ts_1 : List ℝ :=
  (List.range fn1d_num_points).map (fun i =>
    fn1dDefaults.delta_ts_0 /
      (1 + Real.exp (fn1dDefaults.sigma_ts * fn1dDefaults.delta_ts_0 * fn1d_x i) *
        (Real.exp (fn1d_epsilon_ts fn1dDefaults) - 1)))

/-- gamma_ts = 1 + gamma_ts_1 / gamma_ts_2 in laser_amp_test_01,
with gamma_ts_1 = 1000 and gamma_ts_2 = 10. -/
def la_gamma_ts : ℝ := 1 + 1000 / 10

/-- sigma_ts = 8e-19 in laser_amp_test_01. -/
def la_sigma_ts : ℝ := 8e-19

/-- n_ph_0 = n_ph_ts = 1e6 in laser_amp_test_01. -/
def la_n_ph_0 : ℝ := 1e6

/-- scipy.constants.c in m/s, as used by laser_amp_test_01. -/
def la_c : ℝ := 299792458

/-- tau_pulse = 1e-9 in laser_amp_test_01. -/
def la_tau_pulse : ℝ := 1e-9

/-- eta_pulse = n_ph_0 * c * tau_pulse in laser_amp_test_01. -/
def la_eta_pulse : ℝ := la_n_ph_0 * la_c * la_tau_pulse

/-- time_0 = 0 in laser_amp_test_01. -/
def la_time_0 : ℝ := 0

/-- time_f = tau_pulse in laser_amp_test_01. -/
def la_time_f : ℝ := la_tau_pulse

/-- length_ts = 0.01 m in laser_amp_test_01. -/
def la_length_ts : ℝ := 0.01

/-- num_points = 10 in laser_amp_test_01. -/
def la_num_points : Nat := 10

/-- dt = (time_f - time_0) / (num_points - 1). -/
def la_dt : ℝ := (la_time_f - la_time_0) / ((la_num_points : ℝ) - 1)

/-- dz = length_ts / (num_points - 1). -/
def la_dz : ℝ := la_length_ts / ((la_num_points : ℝ) - 1)

/-- t_data[i] = time_0 + i * dt. -/
def la_t_data (i : Nat) : ℝ := la_time_0 + (i : ℝ) * la_dt

/-- z_data[j] = j * dz. -/
def la_z_data (j : Nat) : ℝ := (j : ℝ) * la_dz

/-- Denominator of n_data[j] in the laser_amp_test_01 plotting loop:
1 - np.exp(-gamma_ts * sigma_ts * eta_pulse * (t_data[1] - z_data[j] / c) / tau_pulse). -/
def la_denom (j : Nat) : ℝ :=
  1 - Real.exp (-la_gamma_ts * la_sigma_ts * la_eta_pulse *
    (la_t_data 1 - la_z_data j / la_c) / la_tau_pulse)

/-- Array n_data filled by the laser_amp_test_01 plotting loop:
n_data[j] = n_ph_0 / (the denominator above). -/
def n_data : List ℝ :=
  (List.range la_num_points).map (fun j => la_n_ph_0 / la_denom j)

end

/-- Helper: the multiplot worker returns normally on every finite
generator, for any column count and row position. -/
theorem multiplotGo_ok {α : Type} (k : Nat) :
    ∀ (g : List α) (j : Nat), multiplotGo k g j = Except.ok ()
  | [], _ => rfl
  | _ :: g, j + 1 => multiplotGo_ok k g j
  | _ :: g, 0 => multiplotGo_ok k g k

/-- C3 counterexample: inside multiplot_from_generator the library
call next(g) raises StopIteration on an exhausted generator, yet the
helper returns normally because its try/except catches the exception,
so it is not the case that every failure raised by a library call
propagates out of the cell unhandled. -/
theorem multiplot_catches_library_failure :
    nextGen ([] : List Unit) = Except.error PyExn.stopIteration ∧
    multiplot_from_generator ([] : List Unit) 5 = Except.ok () :=
  ⟨rfl, rfl⟩

/-- C3 (amended): apart from the single try/except StopIteration in
xt02_heat_2D_square's multiplot_from_generator — which catches the
StopIteration raised by next on generator exhaustion and uses it as
the normal termination signal — no notebook implements error handling;
for every column count of at least 1 (in particular the notebook's
call with 5 columns) the helper returns normally on every finite
generator, while the ZeroDivisionError at zero columns is raised
before the try block and propagates unhandled. -/
theorem multiplot_from_generator_returns_ok {α : Type} (g : List α)
    (num_columns : Nat) (hcols : 1 ≤ num_columns) :
    multiplot_from_generator g num_columns = Except.ok () := by
  unfold multiplot_from_generator
  rw [if_neg (by omega)]
  exact multiplotGo_ok (num_columns - 1) g 0

/-- Witness for C3 (amended) at the notebook's call shape, five
columns and a generator yielding five plots. -/
theorem multiplot_from_generator_returns_ok_check :
    1 ≤ 5 ∧ multiplot_from_generator (List.range 5) 5 = Except.ok () :=
  ⟨by decide, multiplot_from_generator_returns_ok (List.range 5) 5 (by decide)⟩

/-- C1 counterexample: one iteration of the cavity-propagation loop
performs four SRW propagation calls, not one, so it is not the case
that every modeled time-stepping loop calls the external solver
exactly once per iteration. -/
theorem cavity_pass_has_four_solver_calls :
    cavity_pass_events ∈ cavity_trace ∧
    (cavity_pass_events.filter isSolverCall).length = 4 ∧
    (cavity_pass_events.filter isSolverCall).length ≠ 1 := by decide

/-- Helper: each evolve iteration makes exactly one solver call. -/
theorem evolve_iter_one_solve (n : Nat) :
    ((evolve_iter n).filter isSolverCall).length = 1 := by
  unfold evolve_iter
  by_cases h : n % heat_nip = 0 <;> simp [h, isSolverCall]

/-- Helper: each file-saving heat iteration makes exactly one solver
call. -/
theorem heat_save_iter_one_solve (n : Nat) :
    ((heat_save_iter n).filter isSolverCall).length = 1 := by
  simp [heat_save_iter, isSolverCall]

/-- Helper: each fn_simp_06d iteration makes exactly one solver
call. -/
theorem fnsimp_iter_one_solve (n : Nat) :
    ((fnsimp_iter n).filter isSolverCall).length = 1 := by
  unfold fnsimp_iter
  by_cases h : n % fnsimp_nip = 0 <;> simp [h, isSolverCall]

/-- C1 (amended): per iteration, the two heat-notebook time-stepping
loops and the amplifier PDE loop each call the external solver exactly
once, while each pass of the cavity loop calls the SRW propagator
exactly four times (once per cavity segment). -/
theorem solver_calls_per_iteration :
    ((evolve_trace.all fun l => (l.filter isSolverCall).length == 1) = true) ∧
    ((heat_save_trace.all fun l => (l.filter isSolverCall).length == 1) = true) ∧
    ((fnsimp_trace.all fun l => (l.filter isSolverCall).length == 1) = true) ∧
    ((cavity_trace.all fun l => (l.filter isSolverCall).length == 4) = true) := by
  refine ⟨?_, ?_, ?_, ?_⟩
  · rw [List.all_eq_true]
    intro l hl
    rw [evolve_trace, List.mem_map] at hl
    obtain ⟨n, -, rfl⟩ := hl
    simpa using evolve_iter_one_solve n
  · rw [List.all_eq_true]
    intro l hl
    rw [heat_save_trace, List.mem_map] at hl
    obtain ⟨n, -, rfl⟩ := hl
    simpa using heat_save_iter_one_solve n
  · rw [List.all_eq_true]
    intro l hl
    rw [fnsimp_trace, List.mem_map] at hl
    obtain ⟨n, -, rfl⟩ := hl
    simpa using fnsimp_iter_one_solve n
  · rw [List.all_eq_true]
    intro l hl
    rw [cavity_trace, List.mem_map] at hl
    obtain ⟨n, -, rfl⟩ := hl
    decide

/-- C4 counterexample: executing the wavefront notebook writes the
text file InitialWavefrontArray.txt via np.savetxt, so the notebooks'
external outputs are not limited to interactive cell displays. -/
theorem repo_writes_a_file :
    Eff.fileWrite part001_fname ∈ part001_savetxt_cell ∧
    Eff.fileWrite part001_fname ∈ repo_effects := by decide

/-- C4 (amended): the notebooks do write output files — np.savetxt
writes InitialWavefrontArray.txt, and the file-saving heat cell writes
one png per time step, 50 files in all — though the file layouts are
those of numpy's savetxt and matplotlib's png writer, not formats
designed by this repository. -/
theorem notebooks_write_output_files :
    Eff.fileWrite part001_fname ∈ repo_effects ∧
    (heat_save_trace.flatten.filter isFileWrite).length = heat_num_steps := by
  decide

/-- C5: every modeled loop ranges over a fixed constant bound — 50
heat time steps (in both time-stepping cells), 800 amplifier PDE
steps, 4 cavity passes, and 10 resp. 100 points in the plotting
loops — so each embedded notebook computation is a total function. -/
theorem loops_have_fixed_bounds :
    evolve_trace.length = 50 ∧ heat_save_trace.length = 50 ∧
    fnsimp_trace.length = 800 ∧ cavity_trace.length = 4 ∧
    n_data.length = 10 ∧ delta_ts_1.length = 100 := by
  refine ⟨?_, ?_, ?_, ?_, ?_, ?_⟩ <;>
    simp [evolve_trace, heat_save_trace, fnsimp_trace, cavity_trace, n_data,
      delta_ts_1, heat_num_steps, fnsimp_n_steps, cavity_npass, la_num_points,
      fn1d_num_points]

/-- C6: the evolve generator yields a plot exactly at those steps n in
0..49 with n % 10 = 0 — the steps 0, 10, 20, 30, 40 — hence exactly 5
plots over the 50 time steps, the first at step 0. -/
theorem evolve_plot_cadence :
    ((List.range heat_num_steps).filter
        (fun n => decide (Eff.yieldPlot ∈ evolve_iter n))) = [0, 10, 20, 30, 40] ∧
    ((List.range heat_num_steps).filter
        (fun n => decide (Eff.yieldPlot ∈ evolve_iter n))).length = 5 ∧
    ((List.range heat_num_steps).all
        (fun n => decide ((Eff.yieldPlot ∈ evolve_iter n) ↔ n % 10 = 0))) = true := by
  decide

/-- Helper: one cavity pass advances the allocation counter by four,
appends the four fresh addresses to cavitywfrList, and leaves every
previously allocated heap object untouched. -/
theorem cavityPass_spec {W : Type} (pr pd pl : W → W) (st : CavState W) :
    (cavityPass pr pd pl st).fresh = st.fresh + 4 ∧
    (cavityPass pr pd pl st).refs =
      st.refs ++ [st.fresh, st.fresh + 1, st.fresh + 2, st.fresh + 3] ∧
    ∀ i, i < st.fresh → (cavityPass pr pd pl st).store i = st.store i := by
  refine ⟨?_, ?_, ?_⟩
  · simp only [cavityPass, cavityStep]
  · simp [cavityPass, cavityStep]
  · intro i hi
    have e1 : i ≠ st.fresh := by omega
    have e2 : i ≠ st.fresh + 1 := by omega
    have e3 : i ≠ st.fresh + 1 + 1 := by omega
    have e4 : i ≠ st.fresh + 1 + 1 + 1 := by omega
    simp [cavityPass, cavityStep, hUpdate, e1, e2, e3, e4]

/-- Helper: invariant of the cavity loop — after m further passes from
a state with allocation counter 1 + 4 * k and cavitywfrList equal to
the list of all allocated addresses in order, the same shape holds
with k + m passes, and address 0 still holds the initial wavefront. -/
theorem cavityLoop_inv {W : Type} (pr pd pl : W → W) (w0 : W) :
    ∀ (m k : Nat) (st : CavState W),
      st.fresh = 1 + 4 * k → st.refs = List.range (1 + 4 * k) → st.store 0 = w0 →
      (cavityLoop pr pd pl m st).fresh = 1 + 4 * (k + m) ∧
      (cavityLoop pr pd pl m st).refs = List.range (1 + 4 * (k + m)) ∧
      (cavityLoop pr pd pl m st).store 0 = w0 := by
  intro m
  induction m with
  | zero =>
    intro k st hf hr hs
    simpa [cavityLoop] using ⟨hf, hr, hs⟩
  | succ n ih =>
    intro k st hf hr hs
    obtain ⟨hf', hr', hs'⟩ := cavityPass_spec pr pd pl st
    have h0 : (cavityPass pr pd pl st).store 0 = w0 := by
      rw [hs' 0 (by omega), hs]
    have hfn : (cavityPass pr pd pl st).fresh = 1 + 4 * (k + 1) := by omega
    have hrn : (cavityPass pr pd pl st).refs = List.range (1 + 4 * (k + 1)) := by
      rw [hr', hr, hf]
      have : 1 + 4 * (k + 1) = (1 + 4 * k) + 1 + 1 + 1 + 1 := by omega
      rw [this, List.range_succ, List.range_succ, List.range_succ, List.range_succ]
      simp
    have := ih (k + 1) (cavityPass pr pd pl st) hfn hrn h0
    have hcl : cavityLoop pr pd pl (n + 1) st =
        cavityLoop pr pd pl n (cavityPass pr pd pl st) := rfl
    rw [hcl]
    have hk : k + 1 + n = k + (n + 1) := by omega
    rw [hk] at this
    exact this

/-- C8: after the cavity loop with npass = 4, cavitywfrList holds
1 + 4 * npass = 17 wavefront objects at pairwise distinct heap
addresses (each pass appends four fresh deepcopies, so no propagation
mutates an element already in the list), and in particular the object
at cavitywfrList[0] is still the unmodified initial wavefront. -/
theorem cavityRun_preserves_initial {W : Type} (w0 : W) (pr pd pl : W → W) :
    (cavityRun w0 pr pd pl).refs.length = 1 + 4 * cavity_npass ∧
    (cavityRun w0 pr pd pl).refs.Nodup ∧
    (cavityRun w0 pr pd pl).store 0 = w0 := by
  have h := cavityLoop_inv pr pd pl w0 cavity_npass 0 (cavityInit w0) rfl
    (by simp [cavityInit, List.range_succ]) rfl
  obtain ⟨hf, hr, hs⟩ := h
  unfold cavityRun
  refine ⟨?_, ?_, hs⟩
  · rw [hr]
    simp [cavity_npass]
  · rw [hr]
    exact List.nodup_range _

/-- Helper: algebraic identity epsilon_ts * g_e_max = epsilon_ts + factor_ts,
valid whenever gamma_ts and eta_pulse are nonzero. -/
theorem fn1d_eps_mul_gmax (p : FN1DParams) (hγ : p.gamma_ts ≠ 0)
    (hη : fn1d_eta_pulse p ≠ 0) :
    fn1d_epsilon_ts p * fn1d_g_e_max p = fn1d_epsilon_ts p + fn1d_factor_ts p := by
  unfold fn1d_epsilon_ts fn1d_g_e_max fn1d_factor_ts
  field_simp
  ring

/-- Helper: bounds on the logarithmic gain formula — given positive
epsilon_ts, nonnegative factor_ts, g_e_max at least 1, and
exp factor_ts <= g_e_max, the formula lies between 1 and g_e_max. -/
theorem fn1d_g_e_formula_bounds (p : FN1DParams)
    (hε : 0 < fn1d_epsilon_ts p) (hf : 0 ≤ fn1d_factor_ts p)
    (hg1 : 1 ≤ fn1d_g_e_max p)
    (hbr : Real.exp (fn1d_factor_ts p) ≤ fn1d_g_e_max p) :
    1 ≤ fn1d_g_e_formula p ∧ fn1d_g_e_formula p ≤ fn1d_g_e_max p := by
  have hs : (0:ℝ) ≤ Real.exp (fn1d_epsilon_ts p) - 1 := by
    have := Real.one_le_exp (le_of_lt hε)
    linarith
  have hef : (1:ℝ) ≤ Real.exp (fn1d_factor_ts p) := Real.one_le_exp hf
  have harg_ge : Real.exp (fn1d_epsilon_ts p) ≤
      1 + Real.exp (fn1d_factor_ts p) * (Real.exp (fn1d_epsilon_ts p) - 1) := by
    nlinarith [hs, hef]
  have harg_pos : (0:ℝ) <
      1 + Real.exp (fn1d_factor_ts p) * (Real.exp (fn1d_epsilon_ts p) - 1) := by
    have := Real.exp_pos (fn1d_epsilon_ts p)
    linarith
  have hlog_lo : fn1d_epsilon_ts p ≤
      Real.log (1 + Real.exp (fn1d_factor_ts p) * (Real.exp (fn1d_epsilon_ts p) - 1)) := by
    have h1 := (Real.log_le_log_iff (Real.exp_pos _) harg_pos).mpr harg_ge
    rwa [Real.log_exp] at h1
  have hmul : Real.exp (fn1d_factor_ts p) * (Real.exp (fn1d_epsilon_ts p) - 1) ≤
      fn1d_g_e_max p * (Real.exp (fn1d_epsilon_ts p) - 1) :=
    mul_le_mul_of_nonneg_right hbr hs
  have hbern : 1 + fn1d_g_e_max p * (Real.exp (fn1d_epsilon_ts p) - 1) ≤
      (1 + (Real.exp (fn1d_epsilon_ts p) - 1)) ^ fn1d_g_e_max p := by
    apply one_add_mul_self_le_rpow_one_add _ hg1
    have := Real.exp_pos (fn1d_epsilon_ts p)
    linarith
  have hpow : (1 + (Real.exp (fn1d_epsilon_ts p) - 1)) ^ fn1d_g_e_max p =
      Real.exp (fn1d_epsilon_ts p * fn1d_g_e_max p) := by
    have h2 : (1:ℝ) + (Real.exp (fn1d_epsilon_ts p) - 1) =
        Real.exp (fn1d_epsilon_ts p) := by ring
    rw [h2, ← Real.exp_mul]
  have hlog_hi : Real.log
      (1 + Real.exp (fn1d_factor_ts p) * (Real.exp (fn1d_epsilon_ts p) - 1)) ≤
      fn1d_epsilon_ts p * fn1d_g_e_max p := by
    rw [Real.log_le_iff_le_exp harg_pos]
    rw [← hpow]
    linarith [hmul, hbern]
  constructor
  · unfold fn1d_g_e_formula
    rw [le_div_iff hε]
    linarith
  · unfold fn1d_g_e_formula
    rw [div_le_iff hε]
    linarith [hlog_hi, mul_comm (fn1d_epsilon_ts p) (fn1d_g_e_max p)]

/-- C9: for positive parameters, the analytic-gain cell of fn1d_02
always satisfies n_ph = g_e * n_ph_0 with 1 <= g_e <= g_e_max and
delta_ts >= 0: when factor_ts >= factor_max the cell returns
g_e = g_e_max and delta_ts = 0, and otherwise the logarithmic formula
stays at most g_e_max, making delta_ts nonnegative. -/
theorem fn1d_gain_invariants (p : FN1DParams)
    (hγ : 0 < p.gamma_ts) (hσ : 0 < p.sigma_ts) (hδ : 0 < p.delta_ts_0)
    (hn : 0 < p.n_ph_0) (hτ : 0 < p.tau_pulse) (hL : 0 < p.length_ts) :
    (fn1d_compute p).n_ph = (fn1d_compute p).g_e * p.n_ph_0 ∧
    1 ≤ (fn1d_compute p).g_e ∧
    (fn1d_compute p).g_e ≤ fn1d_g_e_max p ∧
    0 ≤ (fn1d_compute p).delta_ts := by
  have hc : (0:ℝ) < c_cm := by norm_num [c_cm]
  have hη : 0 < fn1d_eta_pulse p := by
    unfold fn1d_eta_pulse
    exact mul_pos (mul_pos hn hc) hτ
  have hε : 0 < fn1d_epsilon_ts p := by
    unfold fn1d_epsilon_ts
    exact mul_pos (mul_pos hγ hσ) hη
  have hf : 0 < fn1d_factor_ts p := by
    unfold fn1d_factor_ts
    exact mul_pos (mul_pos hσ hδ) hL
  have hg1 : 1 < fn1d_g_e_max p := by
    unfold fn1d_g_e_max
    have : 0 < p.delta_ts_0 * p.length_ts / p.gamma_ts / fn1d_eta_pulse p :=
      div_pos (div_pos (mul_pos hδ hL) hγ) hη
    linarith
  have hnph : (fn1d_compute p).n_ph = (fn1d_compute p).g_e * p.n_ph_0 := by
    unfold fn1d_compute
    split <;> rfl
  by_cases hbr : fn1d_factor_ts p < fn1d_factor_max p
  · have hge : (fn1d_compute p).g_e = fn1d_g_e_formula p := by
      unfold fn1d_compute
      rw [if_pos hbr]
    have hdel : (fn1d_compute p).delta_ts = fn1d_delta_formula p := by
      unfold fn1d_compute
      rw [if_pos hbr]
    have hgpos : (0:ℝ) < fn1d_g_e_max p := by linarith
    have hexpbr : Real.exp (fn1d_factor_ts p) ≤ fn1d_g_e_max p := by
      unfold fn1d_factor_max at hbr
      have h1 := Real.exp_lt_exp.mpr hbr
      rw [Real.exp_log hgpos] at h1
      exact le_of_lt h1
    obtain ⟨hlo, hhi⟩ :=
      fn1d_g_e_formula_bounds p hε (le_of_lt hf) (le_of_lt hg1) hexpbr
    have hdelta : 0 ≤ fn1d_delta_formula p := by
      unfold fn1d_delta_formula
      have hcoef : 0 < p.gamma_ts * fn1d_eta_pulse p / p.length_ts :=
        div_pos (mul_pos hγ hη) hL
      have hgm : fn1d_g_e_max p - 1 =
          p.delta_ts_0 * p.length_ts / p.gamma_ts / fn1d_eta_pulse p := by
        unfold fn1d_g_e_max
        ring
      have hb : fn1d_g_e_formula p - 1 ≤
          p.delta_ts_0 * p.length_ts / p.gamma_ts / fn1d_eta_pulse p := by
        linarith
      have hmul := mul_le_mul_of_nonneg_left hb (le_of_lt hcoef)
      have hid : p.gamma_ts * fn1d_eta_pulse p / p.length_ts *
          (p.delta_ts_0 * p.length_ts / p.gamma_ts / fn1d_eta_pulse p) =
          p.delta_ts_0 := by
        field_simp
        ring
      rw [hid] at hmul
      linarith
    exact ⟨hnph, by rw [hge]; exact hlo, by rw [hge]; exact hhi,
      by rw [hdel]; exact hdelta⟩
  · have hge : (fn1d_compute p).g_e = fn1d_g_e_max p := by
      unfold fn1d_compute
      rw [if_neg hbr]
    have hdel : (fn1d_compute p).delta_ts = 0 := by
      unfold fn1d_compute
      rw [if_neg hbr]
    exact ⟨hnph, by rw [hge]; linarith, hge.le, hdel.ge⟩

/-- Witness for C9 at the notebook's parameter values. -/
theorem fn1d_gain_invariants_check :
    ((0:ℝ) < fn1dDefaults.gamma_ts ∧ (0:ℝ) < fn1dDefaults.sigma_ts ∧
     (0:ℝ) < fn1dDefaults.delta_ts_0 ∧ (0:ℝ) < fn1dDefaults.n_ph_0 ∧
     (0:ℝ) < fn1dDefaults.tau_pulse ∧ (0:ℝ) < fn1dDefaults.length_ts) ∧
    ((fn1d_compute fn1dDefaults).n_ph =
      (fn1d_compute fn1dDefaults).g_e * fn1dDefaults.n_ph_0 ∧
     1 ≤ (fn1d_compute fn1dDefaults).g_e ∧
     (fn1d_compute fn1dDefaults).g_e ≤ fn1d_g_e_max fn1dDefaults ∧
     0 ≤ (fn1d_compute fn1dDefaults).delta_ts) :=
  ⟨⟨by norm_num [fn1dDefaults], by norm_num [fn1dDefaults],
    by norm_num [fn1dDefaults], by norm_num [fn1dDefaults],
    by norm_num [fn1dDefaults], by norm_num [fn1dDefaults]⟩,
   fn1d_gain_invariants fn1dDefaults (by norm_num [fn1dDefaults])
     (by norm_num [fn1dDefaults]) (by norm_num [fn1dDefaults])
     (by norm_num [fn1dDefaults]) (by norm_num [fn1dDefaults])
     (by norm_num [fn1dDefaults])⟩

/-- Helper: with positive epsilon_ts and factor_ts, and the identity
epsilon_ts * g_e_max = epsilon_ts + factor_ts, the unconditioned
logarithmic gain formula lies strictly below g_e_max. -/
theorem fn1d_g_e_formula_lt_gmax (p : FN1DParams)
    (hε : 0 < fn1d_epsilon_ts p) (hf : 0 < fn1d_factor_ts p)
    (hrel : fn1d_epsilon_ts p * fn1d_g_e_max p =
      fn1d_epsilon_ts p + fn1d_factor_ts p) :
    fn1d_g_e_formula p < fn1d_g_e_max p := by
  have hsε : (1:ℝ) < Real.exp (fn1d_epsilon_ts p) := by
    have := Real.add_one_le_exp (fn1d_epsilon_ts p)
    linarith
  have hsf : (1:ℝ) < Real.exp (fn1d_factor_ts p) := by
    have := Real.add_one_le_exp (fn1d_factor_ts p)
    linarith
  have harg_pos : (0:ℝ) <
      1 + Real.exp (fn1d_factor_ts p) * (Real.exp (fn1d_epsilon_ts p) - 1) := by
    nlinarith
  have harg_lt : 1 + Real.exp (fn1d_factor_ts p) * (Real.exp (fn1d_epsilon_ts p) - 1) <
      Real.exp (fn1d_factor_ts p + fn1d_epsilon_ts p) := by
    rw [Real.exp_add]
    nlinarith
  have hlog : Real.log
      (1 + Real.exp (fn1d_factor_ts p) * (Real.exp (fn1d_epsilon_ts p) - 1)) <
      fn1d_factor_ts p + fn1d_epsilon_ts p := by
    have h1 := Real.log_lt_log harg_pos harg_lt
    rwa [Real.log_exp] at h1
  have hgm : fn1d_g_e_max p =
      (fn1d_epsilon_ts p + fn1d_factor_ts p) / fn1d_epsilon_ts p := by
    rw [eq_div_iff (ne_of_gt hε), mul_comm]
    exact hrel
  unfold fn1d_g_e_formula
  rw [hgm, div_lt_div_iff hε hε]
  nlinarith [hlog]

/-- Helper: at the notebook's parameters the branch condition
factor_ts < factor_max of the analytic-gain cell is false, because
factor_ts = 150 while factor_max = log g_e_max <= 150 (indeed
g_e_max <= 11 ^ 15 <= exp 150). -/
theorem fn1dDefaults_not_branch :
    ¬ fn1d_factor_ts fn1dDefaults < fn1d_factor_max fn1dDefaults := by
  have hgpos : (0:ℝ) < fn1d_g_e_max fn1dDefaults := by
    norm_num [fn1d_g_e_max, fn1d_eta_pulse, fn1dDefaults, c_cm]
  rw [not_lt]
  unfold fn1d_factor_max
  have h150 : fn1d_factor_ts fn1dDefaults = 150 := by
    norm_num [fn1d_factor_ts, fn1dDefaults]
  rw [h150, Real.log_le_iff_le_exp hgpos]
  have h11 : (11:ℝ) ≤ Real.exp 10 := by
    have := Real.add_one_le_exp (10:ℝ)
    linarith
  have hpow : ((11:ℝ)) ^ (15:ℕ) ≤ (Real.exp 10) ^ (15:ℕ) :=
    pow_le_pow_left (by norm_num) h11 15
  have hexp : (Real.exp 10) ^ (15:ℕ) = Real.exp 150 := by
    rw [← Real.exp_nat_mul]
    norm_num
  have hbound : fn1d_g_e_max fn1dDefaults ≤ (11:ℝ) ^ (15:ℕ) := by
    norm_num [fn1d_g_e_max, fn1d_eta_pulse, fn1dDefaults, c_cm]
  linarith

/-- C2 counterexample: at the notebook's parameters the conditional of
the analytic-gain cell changes the outcome — the cell returns the cap
g_e = g_e_max while the unconditioned formula would return a strictly
smaller value — so the cell does apply a bound to the computed
quantities, contrary to the claim that no conditional bounds g_e. -/
theorem fn1d_clamp_changes_result :
    (fn1d_compute fn1dDefaults).g_e ≠ (fn1d_compute_noclamp fn1dDefaults).g_e := by
  have hnb := fn1dDefaults_not_branch
  have h1 : (fn1d_compute fn1dDefaults).g_e = fn1d_g_e_max fn1dDefaults := by
    unfold fn1d_compute
    rw [if_neg hnb]
  have h2 : (fn1d_compute_noclamp fn1dDefaults).g_e =
      fn1d_g_e_formula fn1dDefaults := rfl
  have hε : 0 < fn1d_epsilon_ts fn1dDefaults := by
    norm_num [fn1d_epsilon_ts, fn1d_eta_pulse, fn1dDefaults, c_cm]
  have hf : 0 < fn1d_factor_ts fn1dDefaults := by
    norm_num [fn1d_factor_ts, fn1dDefaults]
  have hη : fn1d_eta_pulse fn1dDefaults ≠ 0 := by
    norm_num [fn1d_eta_pulse, fn1dDefaults, c_cm]
  have hγ : fn1dDefaults.gamma_ts ≠ 0 := by norm_num [fn1dDefaults]
  have h3 := fn1d_g_e_formula_lt_gmax fn1dDefaults hε hf
    (fn1d_eps_mul_gmax fn1dDefaults hγ hη)
  rw [h1, h2]
  exact ne_of_gt h3

/-- C2 (amended): rather than enforcing no invariant, the fn1d_02
analytic-gain cell does bound its outputs: whenever the branch
condition factor_ts < factor_max fails, g_e stays capped at g_e_max
and delta_ts stays floored at 0, and at the notebook's parameters this
capped branch is the one taken. -/
theorem fn1d_clamp_enforced :
    (fn1d_compute fn1dDefaults).g_e = fn1d_g_e_max fn1dDefaults ∧
    (fn1d_compute fn1dDefaults).delta_ts = 0 ∧
    ¬ fn1d_factor_ts fn1dDefaults < fn1d_factor_max fn1dDefaults := by
  have hnb := fn1dDefaults_not_branch
  refine ⟨?_, ?_, hnb⟩ <;> unfold fn1d_compute <;> rw [if_neg hnb]

/-- C7: the analytic-gain computation is deterministic: two runs
started from identical values of the six input parameters produce
identical outputs (all of eta_pulse, epsilon_ts, factor_ts,
factor_max, delta_ts, g_e, n_ph agree). -/
theorem fn1d_deterministic (p q : FN1DParams)
    (h1 : p.gamma_ts = q.gamma_ts) (h2 : p.sigma_ts = q.sigma_ts)
    (h3 : p.delta_ts_0 = q.delta_ts_0) (h4 : p.n_ph_0 = q.n_ph_0)
    (h5 : p.tau_pulse = q.tau_pulse) (h6 : p.length_ts = q.length_ts) :
    fn1d_compute p = fn1d_compute q := by
  have hpq : p = q := by
    cases p
    cases q
    simp_all
  rw [hpq]

/-- Witness for C7 at the notebook's parameter values. -/
theorem fn1d_deterministic_check :
    (fn1dDefaults.gamma_ts = fn1dDefaults.gamma_ts ∧
     fn1dDefaults.sigma_ts = fn1dDefaults.sigma_ts ∧
     fn1dDefaults.delta_ts_0 = fn1dDefaults.delta_ts_0 ∧
     fn1dDefaults.n_ph_0 = fn1dDefaults.n_ph_0 ∧
     fn1dDefaults.tau_pulse = fn1dDefaults.tau_pulse ∧
     fn1dDefaults.length_ts = fn1dDefaults.length_ts) ∧
    fn1d_compute fn1dDefaults = fn1d_compute fn1dDefaults :=
  ⟨⟨rfl, rfl, rfl, rfl, rfl, rfl⟩,
   fn1d_deterministic fn1dDefaults fn1dDefaults rfl rfl rfl rfl rfl rfl⟩

/-- C10: in the laser_amp_test_01 plotting loop the division defining
n_data[j] is safe for every j in 0..9: t_data[1] - z_data[j]/c is
strictly positive, so the exponential's argument is strictly negative
and the denominator 1 - exp(...) is strictly positive (never zero). -/
theorem la_denom_safe (j : Nat) (hj : j < la_num_points) :
    0 < la_t_data 1 - la_z_data j / la_c ∧ 0 < la_denom j := by
  have hj9 : (j : ℝ) ≤ 9 := by
    have h10 : la_num_points = 10 := rfl
    rw [h10] at hj
    have : j ≤ 9 := by omega
    exact_mod_cast this
  have hdz : (0:ℝ) ≤ la_dz := by
    norm_num [la_dz, la_length_ts, la_num_points]
  have hc0 : (0:ℝ) < la_c := by norm_num [la_c]
  have hz : la_z_data j ≤ 9 * la_dz := by
    unfold la_z_data
    exact mul_le_mul_of_nonneg_right hj9 hdz
  have hzc : la_z_data j / la_c ≤ 9 * la_dz / la_c :=
    (div_le_div_right hc0).mpr hz
  have hkey : 0 < la_t_data 1 - 9 * la_dz / la_c := by
    norm_num [la_t_data, la_dt, la_dz, la_time_0, la_time_f, la_tau_pulse,
      la_length_ts, la_num_points, la_c]
  have hpos : 0 < la_t_data 1 - la_z_data j / la_c := by linarith
  refine ⟨hpos, ?_⟩
  have hcoef : (0:ℝ) < la_gamma_ts * la_sigma_ts * la_eta_pulse := by
    norm_num [la_gamma_ts, la_sigma_ts, la_eta_pulse, la_n_ph_0, la_c,
      la_tau_pulse]
  have hτ : (0:ℝ) < la_tau_pulse := by norm_num [la_tau_pulse]
  have hEneg : -la_gamma_ts * la_sigma_ts * la_eta_pulse *
      (la_t_data 1 - la_z_data j / la_c) / la_tau_pulse < 0 := by
    have hnum : 0 < la_gamma_ts * la_sigma_ts * la_eta_pulse *
        (la_t_data 1 - la_z_data j / la_c) / la_tau_pulse :=
      div_pos (mul_pos hcoef hpos) hτ
    have hrw : -la_gamma_ts * la_sigma_ts * la_eta_pulse *
        (la_t_data 1 - la_z_data j / la_c) / la_tau_pulse =
        -(la_gamma_ts * la_sigma_ts * la_eta_pulse *
          (la_t_data 1 - la_z_data j / la_c) / la_tau_pulse) := by ring
    rw [hrw]
    linarith
  have hexp : Real.exp (-la_gamma_ts * la_sigma_ts * la_eta_pulse *
      (la_t_data 1 - la_z_data j / la_c) / la_tau_pulse) < 1 :=
    Real.exp_lt_one_iff.mpr hEneg
  unfold la_denom
  linarith

/-- Witness for C10 at j = 0. -/
theorem la_denom_safe_check :
    0 < la_num_points ∧
    (0 < la_t_data 1 - la_z_data 0 / la_c ∧ 0 < la_denom 0) :=
  ⟨by norm_num [la_num_points], la_denom_safe 0 (by norm_num [la_num_points])⟩
